import Mathlib

/-
Verification of the turn-orchestration state machine of the n9-labs/frontend
agent (src/agent/main.py) against its natural-language specification.

The Python source is shallowly embedded: message contents are Lean `String`s
(Python `str`, character-counted lengths), Python dicts of strings are
association lists, exceptions become `Except`, and the external boundaries
(decision oracle, prompt registry, trace sink, resume payload) are explicit
parameters.  Every definition is written to be executable so that concrete
runs can be settled by `decide` / `rfl`.
-/

/-! ## Python helpers: `str.strip`, `str.lower`, substring test, `format(n, ",")` -/

/-- Characters stripped by Python `str.strip()` with no argument
(ASCII whitespace; the source only ever strips API keys and JSON payloads). -/
def isPyWhitespace (c : Char) : Bool :=
  c = ' ' || c = '\t' || c = '\n' || c = '\r' || c = '\x0b' || c = '\x0c'

/-- Python `s.strip()`: remove leading and trailing whitespace. -/
def py_strip (s : String) : String :=
  String.mk (((s.toList.dropWhile isPyWhitespace).reverse.dropWhile isPyWhitespace).reverse)

/-- Python `s.lower()` (ASCII case folding, which is all the source compares). -/
def pyLower (s : String) : String :=
  String.mk (s.toList.map Char.toLower)

/-- One step of the substring scan for `isSubstr`. -/
def isSubstrAux (needle : List Char) : List Char → Bool
  | [] => needle.isEmpty
  | c :: rest => needle.isPrefixOf (c :: rest) || isSubstrAux needle rest

/-- Python `needle in hay` on strings: substring containment. -/
def isSubstr (needle hay : String) : Bool :=
  isSubstrAux needle.toList hay.toList

/-- Insert a comma after every third digit of a reversed digit list
(worker for `commaFmt`). -/
def commaChunks : List Char → List Char
  | a :: b :: c :: d :: rest => a :: b :: c :: ',' :: commaChunks (d :: rest)
  | l => l

/-- Python `format(n, ",")` / f-string `:,`: decimal digits grouped in threes
by commas, as used in the truncation marker. -/
def commaFmt (n : Nat) : String :=
  String.mk (commaChunks (Nat.toDigits 10 n).reverse).reverse

/-! ## Message Sanitizer: `trim_tool_response` (main.py lines 919-948) -/

/-- Truncation marker inserted by `trim_tool_response` for `n` omitted
characters: the f-string
`"\n\n... [TRUNCATED \x7btruncated_chars:,\x7d characters to prevent context overflow] ...\n\n"`. -/
def truncation_notice (n : Nat) : String :=
  "\n\n... [TRUNCATED " ++ commaFmt n ++ " characters to prevent context overflow] ...\n\n"

/-- Embedding of `trim_tool_response(content, max_chars)`.

Python computes `keep_start = int(max_chars * 0.7)` and
`keep_end = int(max_chars * 0.3)` in floating point; for the two ceilings the
source ever passes (10000 and 50000) those equal `max_chars * 7 / 10` and
`max_chars * 3 / 10` in exact natural arithmetic, which is the embedding used
here.  `content[-keep_end:]` is Python slicing: for `keep_end = 0` it is the
whole string, otherwise the last `keep_end` characters. -/
def trim_tool_response (content : String) (max_chars : Nat) : String :=
  if content.length ≤ max_chars then content
  else
    let keep_start := max_chars * 7 / 10
    let keep_end := max_chars * 3 / 10
    let start_content := String.mk (content.toList.take keep_start)
    let end_content :=
      String.mk (content.toList.drop (if keep_end = 0 then 0 else content.length - keep_end))
    let truncated_chars := content.length - max_chars
    start_content ++ truncation_notice truncated_chars ++ end_content

/-- Concrete oversized tool response used by the witnesses: 10001 copies of `a`. -/
def c1s : String := String.mk (List.replicate 10001 'a')

/-! ## Data model: messages, tool calls, routing decisions

The LangChain message classes `SystemMessage` / `HumanMessage` / `AIMessage` /
`ToolMessage` are embedded as one structure with a kind tag.  `id` is the
(possibly null) message identifier; `error_flag` models the
`additional_kwargs["error"]` entry attached by `tool_node` (absent = `false`).
The null-`parentMessageId` scrubbing in the source only deletes attributes and
is not needed by any claim, so it is not modelled. -/

/-- A tool call requested by an `AIMessage` (name, argument mapping, call id). -/
structure ToolCall where
  name : String
  args : List (String × String)
  call_id : String
deriving DecidableEq

/-- Which LangChain message class a message is. -/
inductive MsgKind where
  | system
  | human
  | ai (tool_calls : List ToolCall)
  | tool (tool_call_id : String)
deriving DecidableEq

/-- A transcript message. -/
structure Message where
  id : Option String
  content : String
  kind : MsgKind
  error_flag : Bool
deriving DecidableEq

/-- Outcome of the Router `should_continue`: the LangGraph edge labels
`"tools"`, `"feedback"` and `END`. -/
inductive RouteDecision where
  | tools
  | feedback
  | terminate
deriving DecidableEq

/-! ## Router: `should_continue` (main.py lines 1060-1091) -/

/-- Embedding of `should_continue(state)`: routes on the last transcript
message (`if not messages: return END`, then `messages[-1]`). -/
def should_continue (messages : List Message) : RouteDecision :=
  match messages.getLast? with
  | none => RouteDecision.terminate
  | some last_message =>
    match last_message.kind with
    | MsgKind.ai tool_calls =>
      if tool_calls.isEmpty then RouteDecision.feedback else RouteDecision.tools
    | _ => RouteDecision.terminate

/-! ## Decision Step: `agent_node` (main.py lines 959-1056) -/

/-- A system directive message as constructed by `SystemMessage(content=...)`
(a freshly constructed LangChain message has no id). -/
def mkSystemMessage (content : String) : Message :=
  { id := none, content := content, kind := MsgKind.system, error_flag := false }

/-- Whether the first transcript element is a `SystemMessage`
(`messages and isinstance(messages[0], SystemMessage)`). -/
def head_is_system (msgs : List Message) : Bool :=
  match msgs with
  | [] => false
  | m :: _ => match m.kind with | MsgKind.system => true | _ => false

/-- Embedding of the prompt-prepend step of `agent_node`:
`if not messages or not isinstance(messages[0], SystemMessage):
messages = [SystemMessage(content=load_system_prompt())] + list(messages)`. -/
def prepend_system (prompt : String) (msgs : List Message) : List Message :=
  if head_is_system msgs then msgs else mkSystemMessage prompt :: msgs

/-- Embedding of the in-place trimming loop of `agent_node`: `ToolMessage`
content longer than 10000 is trimmed with the default ceiling, `AIMessage`
content longer than 50000 with `max_chars=50000`. -/
def sanitize_message (m : Message) : Message :=
  match m.kind with
  | MsgKind.tool _ =>
    if 10000 < m.content.length
    then { m with content := trim_tool_response m.content 10000 } else m
  | MsgKind.ai _ =>
    if 50000 < m.content.length
    then { m with content := trim_tool_response m.content 50000 } else m
  | _ => m

/-- The trimming loop applied to the whole transcript. -/
def sanitize_messages (msgs : List Message) : List Message :=
  msgs.map sanitize_message

/-- A Python exception caught by a node's `except` block: its class name and
its string rendering (`type(e).__name__` and `str(e)`). -/
structure PyExc where
  typeName : String
  msg : String
deriving DecidableEq

/-- The `error_msg` string built in `agent_node`'s handler:
`f"Agent error: \x7btype(e).__name__\x7d: \x7bstr(e)\x7d"`. -/
def agent_error_msg (e : PyExc) : String :=
  "Agent error: " ++ e.typeName ++ ": " ++ e.msg

/-- The user-facing banner of the synthetic error `AIMessage`. -/
def error_banner (error_msg : String) : String :=
  "⚠️ **An error occurred while processing your request:**\n\n```\n" ++ error_msg ++ "\n```"

/-- The null-id repair applied to the oracle reply
(`if hasattr(response, "id") and response.id is None: response.id = str(uuid.uuid4())`). -/
def ensure_id (m : Message) (fresh : String) : Message :=
  match m.id with
  | none => { m with id := some fresh }
  | some _ => m

/-- What `agent_node` returns: the state delta `{"messages": [...]}` plus the
optional `"error"` entry. -/
structure AgentNodeResult where
  messages : List Message
  error : Option String
deriving DecidableEq

/-- Embedding of `agent_node`.  The decision oracle (`model_to_use.ainvoke`)
is an explicit parameter returning either a reply message or a raised
exception; `fresh` is the `uuid.uuid4()` string drawn when an id must be
generated.  The `try` body prepends the system directive, trims oversized
messages, invokes the oracle and repairs a null reply id; the `except` arm
returns the synthetic error `AIMessage` (with a generated id and no tool
calls) and sets the state's `error` field. -/
def agent_node (msgs : List Message) (system_prompt fresh : String)
    (oracle : List Message → Except PyExc Message) : AgentNodeResult :=
  let msgs1 := prepend_system system_prompt msgs
  let msgs2 := sanitize_messages msgs1
  match oracle msgs2 with
  | Except.ok response => { messages := [ensure_id response fresh], error := none }
  | Except.error e =>
    { messages := [{ id := some fresh, content := error_banner (agent_error_msg e),
                     kind := MsgKind.ai [], error_flag := false }],
      error := some (agent_error_msg e) }

/-! ## Tool Invoker wrapper: `tool_node` (main.py lines 1228-1325) -/

/-- Embedding of the error-signature test in `tool_node`:
`"Error:" in content or "HTTPError:" in content or "HTTP error" in content or
"Traceback" in content or "does not exist for the field" in content or
content.lower().startswith("error")`. -/
def classify_error (content : String) : Bool :=
  isSubstr "Error:" content || isSubstr "HTTPError:" content
    || isSubstr "HTTP error" content || isSubstr "Traceback" content
    || isSubstr "does not exist for the field" content
    || "error".toList.isPrefixOf (pyLower content).toList

/-- The per-message repair of `tool_node`: fix a null id with a fresh uuid
(`freshf i` is the uuid drawn for message `i`), and set the
`additional_kwargs["error"]` flag when the content matches an error
signature (the flag is only ever set, never cleared). -/
def fix_message (freshf : Nat → String) (i : Nat) (m : Message) : Message :=
  let m1 := match m.id with
    | none => { m with id := some (freshf i) }
    | some _ => m
  if classify_error m1.content then { m1 with error_flag := true } else m1

/-- Embedding of the message loop of `tool_node` over the base `ToolNode`
result, starting at message index `i`. -/
def tool_node (freshf : Nat → String) : Nat → List Message → List Message
  | _, [] => []
  | i, m :: rest => fix_message freshf i m :: tool_node freshf (i + 1) rest

/-! ## Operating-instructions provider: `_load_prompt_from_mlflow` (main.py lines 758-788) -/

/-- The built-in fallback system prompt `DEFAULT_SYSTEM_PROMPT` (main.py lines 638-755), copied verbatim. -/
def DEFAULT_SYSTEM_PROMPT : String :=
  "You are an expert finder for Red Hat AI. Your job is to help users 
find the right people to talk to about features, products, or technical questions.

## Available Tools

### Neo4j JIRA Search Tools
The database contains JIRAs from Red Hat AI projects with these properties:
- key: JIRA ID (e.g., \"RHAIRFE-1237\", \"RHAISTRAT-1077\")
- title: Issue summary
- text: Full content with description
- issue_type: Feature Request, Story, Feature, Task, Epic, Sub-task, Outcome, Initiative, Bug
- status: Issue status (New, Approved, Closed, etc.)
- assignee: Person assigned (name string, may be empty)
- reporter: Person who reported (name string)
- project: Project name (e.g., \"Red Hat AI RFE project\", \"Red Hat AI Strategy Project\")
- labels: Array of labels (e.g., [\"MaaS\", \"llm-d\", \"3.4-candidate\"])
- priority: Priority level (Critical, Major, Undefined, etc.)

**Tools:**
- **search_jira_text(query, limit)**: Keyword search on JIRA titles and content
- **find_experts_by_topic(topic, limit)**: Find people ranked by JIRAs on a topic
- **find_experts_by_label(labels, limit)**: Find people by JIRA labels
- **find_jiras_by_person(person_name, limit)**: Find JIRAs assigned to or reported by a person
- **get_jira_details(jira_key)**: Get full details of a specific JIRA
- **list_jira_labels()**: See all available labels in the database

## Your Workflow

1. **Understand the Query**: When a user asks \"Who should I talk to about [topic]?\", 
   extract the key concepts (e.g., \"llm-d\", \"observability\", \"autoscaling\").

2. **Find Experts Directly**: Use `find_experts_by_topic` with relevant keywords.
   This returns people ranked by how many related JIRAs they've worked on.
   
   Example: find_experts_by_topic(\"llm-d\") -> Returns top contributors to llm-d work

3. **Use Labels for Specific Areas**: If you know the label, use `find_experts_by_label`.
   Common labels include: \"MaaS\", \"llm-d\", \"3.4-candidate\", \"tech-reviewed\"
   
   Example: find_experts_by_label([\"MaaS\"]) -> Returns experts in MaaS area

4. **Find What Someone is Working On**: When asked \"What is [person] working on?\", use 
   `find_jiras_by_person` to find JIRAs assigned to or reported by that person.
   
   Example: find_jiras_by_person(\"Russell Bryant\") -> Returns JIRAs Russell is working on

5. **Search for Context**: Use `search_jira_text` to find relevant JIRAs and understand
   what work is being done. Then use `get_jira_details` for full descriptions.

6. **Synthesize Results**: Combine findings to recommend the best contacts.

## Role Inference Guidelines

Use issue types and context to infer roles:

- **Feature Request / Feature**: Often owned by **Product Managers** or **Tech Leads**
  - These define what should be built
  - The assignee is likely the feature owner or PM
  
- **Outcome / Initiative**: Usually owned by **Strategy** or **Leadership**
  - High-level goals and directions
  - Assignees are typically senior leaders or PMs

- **Story / Task / Sub-task**: Usually assigned to **Developers** or **Engineers**
  - Implementation work
  - The assignee is doing the hands-on work

- **Epic**: Owned by **Feature Leads** or **Engineering Managers**
  - Coordinates multiple stories/tasks
  
- **Bug**: Assigned to **Developers** for fixing
  - Reporter may be QE or customer-facing team

## Confidence Levels

- **High**: Person has 5+ JIRAs on the topic, clear ownership pattern
- **Medium**: Person has 2-4 JIRAs, some ownership signals
- **Low**: Only 1 JIRA or unclear context

## Output Format

For each expert, format as follows with a BLANK LINE between each person:

**[Name]**
- Role Inference: [role] ([confidence] Confidence)
- JIRAs: [count]
- Projects: [project names]
- Sample JIRA Keys: [keys]
- Reasoning: [brief explanation]

[blank line before next person]

**[Next Name]**
...
\nIMPORTANT: Always include a blank line between each expert entry for readability.

Be concise but informative. If multiple people are relevant, rank them by expertise level.

## CRITICAL: When to Stop

DO NOT keep calling tools endlessly. Follow this rule:

1. Call find_experts_by_topic ONCE with the main topic
2. If you get results, STOP and synthesize your answer immediately
3. Only call additional tools if the first search returned zero results
4. Maximum 3 tool calls per query - then you MUST provide your best answer
5. If you have ANY relevant experts, provide your answer - do not keep searching for \"better\" results

## Collecting Feedback

After providing your complete answer, you can optionally call the `request_feedback` tool to collect
user satisfaction data. This helps improve the system over time.

Example:
- Provide your expert recommendations
- Then call: request_feedback(response_text=\"summary of what you told them\", question=\"Was this helpful?\")
- The user will see a feedback card and can rate your response"

/-- Embedding of `_load_prompt_from_mlflow()`.  `registry_prompt` is the
external MLflow prompt registry boundary: `some t` when
`mlflow.genai.load_prompt` returns a prompt with template `t`, `none` when the
call raises (registry unreachable, prompt not registered).  Every path returns
a string; the fallback arms return the built-in default. -/
def load_prompt_from_mlflow (mlflow_enabled : Bool) (registry_prompt : Option String) : String :=
  if !mlflow_enabled then DEFAULT_SYSTEM_PROMPT
  else
    match registry_prompt with
    | some t => t
    | none => DEFAULT_SYSTEM_PROMPT

/-! ## Feedback Step: `feedback_node` (main.py lines 1095-1218) -/

/-- The resume payload delivered by `Command(resume=...)`: the code branches
on `isinstance(feedback_data, dict)` and `isinstance(feedback_data, str)`.
Dicts are modelled as association lists of strings (the frontend sends
string-valued fields). -/
inductive ResumePayload where
  | dict (d : List (String × String))
  | str (s : String)
deriving DecidableEq

/-- Python truthiness of the payload (`if feedback_data:`): an empty dict and
an empty string are falsy. -/
def payload_truthy : ResumePayload → Bool
  | ResumePayload.dict d => !d.isEmpty
  | ResumePayload.str s => !(s = "")

/-- Skip JSON whitespace. -/
def skipWs : List Char → List Char
  | [] => []
  | c :: rest => if c = ' ' || c = '\t' || c = '\n' || c = '\r' then skipWs rest else c :: rest

/-- Scan a JSON string literal body up to the closing quote (no escapes:
the feedback payloads carry plain `yes` / `no` strings). -/
def scanStringLit (acc : List Char) : List Char → Option (String × List Char)
  | [] => none
  | c :: rest =>
    if c = '"' then some (String.mk acc.reverse, rest)
    else if c = '\\' then none
    else scanStringLit (c :: acc) rest

/-- Parse a JSON string literal including its opening quote. -/
def parseStringLit : List Char → Option (String × List Char)
  | '"' :: rest => scanStringLit [] rest
  | _ => none

/-- Parse the members of a JSON object after the opening brace, fuelled by the
input length. -/
def parseMembersFuel : Nat → List Char → Option (List (String × String) × List Char)
  | 0, _ => none
  | fuel + 1, l =>
    match parseStringLit (skipWs l) with
    | none => none
    | some (k, rest) =>
      match skipWs rest with
      | ':' :: rest2 =>
        match parseStringLit (skipWs rest2) with
        | none => none
        | some (v, rest3) =>
          match skipWs rest3 with
          | ',' :: rest4 =>
            match parseMembersFuel fuel rest4 with
            | some (tail, rem) => some ((k, v) :: tail, rem)
            | none => none
          | '}' :: rest4 => some ([(k, v)], rest4)
          | _ => none
      | _ => none

/-- Model of Python `json.loads` restricted to flat JSON objects with string
keys and string values — the payload shape the frontend sends
(`'\x7b"feedback": "yes"\x7d'` per the source comment).  Any input that is not
such an object yields `none`, which matches the source's control flow: both a
`json.JSONDecodeError` from `json.loads` and the `AttributeError` from calling
`.get` on a non-dict JSON value are swallowed by the same bare `except` and
fall through to the substring fallback. -/
def json_loads_obj (s : String) : Option (List (String × String)) :=
  match skipWs s.toList with
  | '{' :: rest =>
    match skipWs rest with
    | '}' :: rest2 => if (skipWs rest2).isEmpty then some [] else none
    | _ =>
      match parseMembersFuel s.length rest with
      | some (kvs, rem) => if (skipWs rem).isEmpty then some kvs else none
      | none => none
  | _ => none

/-- Embedding of the feedback-extraction block of `feedback_node`:
`None` stays `none`; a truthy dict yields `get("feedback", "")`; a truthy
string is JSON-parsed first, falling back to
`"yes" if "yes" in feedback_data.lower() else "no"`. -/
def extract_feedback (payload : ResumePayload) : Option String :=
  if payload_truthy payload then
    match payload with
    | ResumePayload.dict d => some ((d.lookup "feedback").getD "")
    | ResumePayload.str s =>
      match json_loads_obj s with
      | some parsed => some ((parsed.lookup "feedback").getD "")
      | none => some (if isSubstr "yes" (pyLower s) then "yes" else "no")
  else none

/-- Python `if not feedback:` — `None` and the empty string are falsy. -/
def feedback_is_empty : Option String → Bool
  | none => true
  | some f => f = ""

/-- The record passed to `mlflow.log_feedback` (the trace/feedback sink). -/
structure FeedbackRecord where
  trace_id : String
  name : String
  value : Bool
  rationale : String
  source_type : String
  source_id : String
deriving DecidableEq

/-- Observable outcome of one `feedback_node` run: whether `interrupt()` was
reached, the extracted feedback value, and the record handed to the sink
(`none` when `mlflow.log_feedback` is never called).  The node's state delta
is `\x7b\x7d` on every path. -/
structure FeedbackRun where
  interrupted : Bool
  extracted : Option String
  record : Option FeedbackRecord
deriving DecidableEq

/-- The scan for the response to rate: the most recent `AIMessage` with no
tool calls (`for msg in reversed(messages): if isinstance(msg, AIMessage) and
not msg.tool_calls`). -/
def find_last_final_ai (messages : List Message) : Option Message :=
  messages.reverse.find? (fun m =>
    match m.kind with
    | MsgKind.ai tool_calls => tool_calls.isEmpty
    | _ => false)

/-- Embedding of `feedback_node`.  `mlflow_enabled` is the setting,
`active_trace_id` the value of `mlflow.get_last_active_trace_id()` at scoring
time, and `payload` the resume data returned by `interrupt()`.  When no final
`AIMessage` exists the node returns before interrupting; when the extracted
feedback is falsy it returns with no record; otherwise it calls the sink with
`name="user_satisfaction"`, boolean `value = (feedback == "yes")`, the
rationale f-string, and a human assessment source — but only if MLflow is
enabled and an active trace id exists (otherwise the score is dropped). -/
def feedback_node (messages : List Message) (mlflow_enabled : Bool)
    (active_trace_id : Option String) (payload : ResumePayload) : FeedbackRun :=
  match find_last_final_ai messages with
  | none => { interrupted := false, extracted := none, record := none }
  | some _ =>
    let feedback := extract_feedback payload
    if feedback_is_empty feedback then
      { interrupted := true, extracted := feedback, record := none }
    else
      let f := feedback.getD ""
      let record :=
        if mlflow_enabled then
          match active_trace_id with
          | some tid =>
            some { trace_id := tid, name := "user_satisfaction", value := (f = "yes"),
                   rationale := "User indicated response was "
                     ++ (if f = "yes" then "helpful" else "not helpful"),
                   source_type := "HUMAN", source_id := "agent_feedback_node" }
          | none => none
        else none
      { interrupted := true, extracted := feedback, record := record }

/-! ## Startup configuration: `Settings._resolve_api_key` (main.py lines 88-104)
and `get_model` (main.py lines 894-915) -/

/-- Embedding of the `Settings` model validator `_resolve_api_key`: strip both
credentials, collect the non-empty ones, raise `ValueError` on zero or more
than one, otherwise resolve `api_key` to the single provided (stripped) key. -/
def resolve_api_key (openai_api_key anthropic_api_key : String) : Except String String :=
  let openai := py_strip openai_api_key
  let anthropic := py_strip anthropic_api_key
  let provided := [openai, anthropic].filter (fun k => !(k = ""))
  if provided.length = 0 then
    Except.error "Missing API key: set exactly one of OPENAI_API_KEY or ANTHROPIC_API_KEY."
  else if 1 < provided.length then
    Except.error "Ambiguous API key: set only one of OPENAI_API_KEY or ANTHROPIC_API_KEY (not both)."
  else
    Except.ok (provided.headD "")

/-- The two decision-oracle providers. -/
inductive Provider where
  | openai
  | anthropic
deriving DecidableEq

/-- Embedding of `get_model()`: Python truthiness of the raw (unstripped)
credential selects the provider, OpenAI checked first; with neither set it
raises `ValueError("No API key configured")`.  The returned pair is the chosen
provider and the `api_key` argument passed to its client. -/
def get_model (openai_api_key anthropic_api_key : String) : Except String (Provider × String) :=
  if !(openai_api_key = "") then Except.ok (Provider.openai, openai_api_key)
  else if !(anthropic_api_key = "") then Except.ok (Provider.anthropic, anthropic_api_key)
  else Except.error "No API key configured"

/-- Boolean success of an `Except` (did `Settings` construction succeed). -/
def except_ok {ε α : Type} : Except ε α → Bool
  | Except.ok _ => true
  | Except.error _ => false

/-! ## Definitions written from the claims' words (for refinement comparison) -/

/-- Validity condition as claim C9 words it: exactly one of the two
credentials is a non-empty string (no stripping). -/
def claimed_exactly_one (openai_api_key anthropic_api_key : String) : Bool :=
  (!(openai_api_key = "") && anthropic_api_key = "")
    || (openai_api_key = "" && !(anthropic_api_key = ""))

/-- Error-signature list as claim C8 words it: an `Error:` marker, an HTTP
error marker, a stack-trace marker, or content beginning with `error`
case-insensitively. -/
def claimed_error_signature (content : String) : Bool :=
  isSubstr "Error:" content || isSubstr "HTTPError:" content
    || isSubstr "HTTP error" content || isSubstr "Traceback" content
    || "error".toList.isPrefixOf (pyLower content).toList

/-! ## Concrete inputs used by witnesses and counterexamples -/

/-- A final `AIMessage` transcript for feedback runs. -/
def c2msgs : List Message :=
  [{ id := some "msg-1", content := "Here is my expert recommendation.",
     kind := MsgKind.ai [], error_flag := false }]

/-- A concrete tool call. -/
def c4call : ToolCall :=
  { name := "find_experts_by_topic", args := [("topic", "llm-d")], call_id := "call-1" }

/-- An `AIMessage` requesting one tool call. -/
def c4msg : Message :=
  { id := some "msg-2", content := "", kind := MsgKind.ai [c4call], error_flag := false }

/-- A caught oracle exception. -/
def c5exc : PyExc := { typeName := "TimeoutError", msg := "Request timed out" }

/-- An oracle reply with a null id. -/
def c6resp : Message :=
  { id := none, content := "final answer", kind := MsgKind.ai [], error_flag := false }

/-- A `ToolMessage` as produced by the base `ToolNode`. -/
def c6toolmsg : Message :=
  { id := none, content := "Found 3 JIRAs", kind := MsgKind.tool "call-1", error_flag := false }

/-- A `ToolMessage` whose content matches only the source's fifth error
signature. -/
def c8msg : Message :=
  { id := some "tool-1", content := "does not exist for the field",
    kind := MsgKind.tool "call-1", error_flag := false }

/-! ## String embedding helper lemmas -/

theorem toList_append_str (a b : String) : (a ++ b).toList = a.toList ++ b.toList := by
  cases a; cases b; rfl

theorem toList_mk (l : List Char) : (String.mk l).toList = l := rfl

theorem length_eq_toList_length (s : String) : s.length = s.toList.length := rfl

/-- The character list of a trimmed oversized string, in closed form. -/
theorem trim_tool_response_toList (s : String) (h : 10000 < s.length) :
    (trim_tool_response s 10000).toList =
      s.toList.take 7000 ++ (truncation_notice (s.length - 10000)).toList
        ++ s.toList.drop (s.length - 3000) := by
  have hnle : ¬ s.length ≤ 10000 := Nat.not_le.mpr h
  unfold trim_tool_response
  rw [if_neg hnle]
  simp only [toList_append_str, toList_mk]
  norm_num

/-- Length of a trimmed oversized string: the ceiling plus the marker length. -/
theorem trim_length (s : String) (h : 10000 < s.length) :
    (trim_tool_response s 10000).length
      = 10000 + (truncation_notice (s.length - 10000)).length := by
  have hs : s.toList.length = s.length := rfl
  rw [length_eq_toList_length, trim_tool_response_toList s h, List.length_append,
    List.length_append, List.length_take, List.length_drop,
    ← length_eq_toList_length (truncation_notice (s.length - 10000)), hs]
  omega

theorem c1s_length : c1s.length = 10001 := by
  show (List.replicate 10001 'a').length = 10001
  rw [List.length_replicate]

/-- Content of a message is unchanged by the `tool_node` per-message repair. -/
theorem fix_message_content (freshf : Nat → String) (i : Nat) (m : Message) :
    (fix_message freshf i m).content = m.content := by
  unfold fix_message
  cases h : m.id <;> dsimp <;> split <;> rfl

/-- The repaired error flag of a message whose flag was unset equals the
error classification of its content. -/
theorem fix_message_flag (freshf : Nat → String) (i : Nat) (m : Message)
    (h : m.error_flag = false) :
    (fix_message freshf i m).error_flag = classify_error m.content := by
  unfold fix_message
  cases hid : m.id <;> dsimp <;> split <;> simp_all

/-- The repaired id is never null. -/
theorem fix_message_id_isSome (freshf : Nat → String) (i : Nat) (m : Message) :
    ((fix_message freshf i m).id).isSome = true := by
  unfold fix_message
  cases hid : m.id <;> dsimp <;> split <;> simp_all

/-- The oracle-reply id repair in `agent_node` never returns a null id. -/
theorem ensure_id_isSome (m : Message) (fresh : String) :
    ((ensure_id m fresh).id).isSome = true := by
  unfold ensure_id
  cases h : m.id <;> simp_all

/-- The source's classification is the claim's signature list plus the
tool-argument validation marker. -/
theorem classify_error_eq (c : String) :
    classify_error c
      = (claimed_error_signature c || isSubstr "does not exist for the field" c) := by
  unfold classify_error claimed_error_signature
  cases isSubstr "Error:" c <;> cases isSubstr "HTTPError:" c <;>
    cases isSubstr "HTTP error" c <;> cases isSubstr "Traceback" c <;>
    cases isSubstr "does not exist for the field" c <;>
    cases "error".toList.isPrefixOf (pyLower c).toList <;> rfl

/-! ## Claim C1 -/

/-- C1: for every ToolResult content string longer than 10000 characters,
`trim_tool_response` with ceiling 10000 returns exactly the first 7000
characters (70% of the ceiling), then the marker naming exactly
`len(content) - 10000` omitted characters, then the last 3000 characters
(30% of the ceiling); in particular the output starts with the original's
first 7000 characters, ends with its last 3000 characters, and its total
length is exactly the ceiling plus the length of the inserted marker. -/
theorem trim_round_trip (s : String) (h : 10000 < s.length) :
    (trim_tool_response s 10000).toList
        = s.toList.take 7000 ++ (truncation_notice (s.length - 10000)).toList
          ++ s.toList.drop (s.length - 3000)
    ∧ (∃ tail, (trim_tool_response s 10000).toList = s.toList.take 7000 ++ tail)
    ∧ (∃ front, (trim_tool_response s 10000).toList = front ++ s.toList.drop (s.length - 3000))
    ∧ (trim_tool_response s 10000).length
        = 10000 + (truncation_notice (s.length - 10000)).length := by
  refine ⟨trim_tool_response_toList s h,
    ⟨(truncation_notice (s.length - 10000)).toList ++ s.toList.drop (s.length - 3000), ?_⟩,
    ⟨s.toList.take 7000 ++ (truncation_notice (s.length - 10000)).toList,
      trim_tool_response_toList s h⟩,
    trim_length s h⟩
  rw [trim_tool_response_toList s h, List.append_assoc]

/-- Witness for C1 at a concrete 10001-character content string. -/
theorem trim_round_trip_witness :
    10000 < c1s.length
    ∧ ((trim_tool_response c1s 10000).toList
          = c1s.toList.take 7000 ++ (truncation_notice (c1s.length - 10000)).toList
            ++ c1s.toList.drop (c1s.length - 3000)
       ∧ (∃ tail, (trim_tool_response c1s 10000).toList = c1s.toList.take 7000 ++ tail)
       ∧ (∃ front, (trim_tool_response c1s 10000).toList
            = front ++ c1s.toList.drop (c1s.length - 3000))
       ∧ (trim_tool_response c1s 10000).length
            = 10000 + (truncation_notice (c1s.length - 10000)).length) := by
  have hlt : 10000 < c1s.length := by rw [c1s_length]; omega
  exact ⟨hlt, trim_round_trip c1s hlt⟩

/-! ## Claim C3 -/

/-- C3 counterexample: at the concrete 10001-character content `c1s`,
re-running `trim_tool_response` on its own output changes it again: the first
pass leaves a string of length 10000 plus the marker, which still exceeds the
ceiling, so trimming is not idempotent. -/
theorem trim_not_idempotent :
    trim_tool_response (trim_tool_response c1s 10000) 10000
      ≠ trim_tool_response c1s 10000 := by
  have hc : (10000 : Nat) < c1s.length := by rw [c1s_length]; omega
  have h1 : (trim_tool_response c1s 10000).length
      = 10000 + (truncation_notice 1).length := by
    have h := trim_length c1s hc
    rwa [c1s_length] at h
  have hn1 : (truncation_notice 1).length = 64 := by decide
  have h2 : (trim_tool_response (trim_tool_response c1s 10000) 10000).length
      = 10000 + (truncation_notice 64).length := by
    have h := trim_length (trim_tool_response c1s 10000) (by omega)
    rw [h, h1, hn1]
  intro hEq
  rw [hEq, h1, hn1] at h2
  have h64 : (truncation_notice 64).length = 64 := by omega
  exact absurd h64 (by decide)

/-- C3 (amended): trimming is a no-op on content whose length is within the
ceiling — hence idempotent on such content — and the Decision Step's
sanitizer pass leaves a message of legal size entirely unchanged (content and
id).  For oversized content the first pass returns a string of length
`ceiling + marker`, which exceeds the ceiling, so a second pass trims again
(see the counterexample); idempotence holds only below the ceiling. -/
theorem trim_noop_within_ceiling (s : String) (c : Nat) (h : s.length ≤ c)
    (m : Message) (hm : m.content.length ≤ 10000) :
    trim_tool_response s c = s
    ∧ trim_tool_response (trim_tool_response s c) c = trim_tool_response s c
    ∧ sanitize_message m = m := by
  have h1 : trim_tool_response s c = s := by
    unfold trim_tool_response
    rw [if_pos h]
  refine ⟨h1, by rw [h1, h1], ?_⟩
  unfold sanitize_message
  rcases m with ⟨id, content, kind, flag⟩
  dsimp at hm ⊢
  cases kind <;> dsimp <;> first
    | rfl
    | rw [if_neg (by omega)]

/-- Witness for C3 (amended) at concrete legal-size inputs. -/
theorem trim_noop_within_ceiling_witness :
    ("short answer" : String).length ≤ 10000
    ∧ c6toolmsg.content.length ≤ 10000
    ∧ (trim_tool_response "short answer" 10000 = "short answer"
       ∧ trim_tool_response (trim_tool_response "short answer" 10000) 10000
           = trim_tool_response "short answer" 10000
       ∧ sanitize_message c6toolmsg = c6toolmsg) :=
  ⟨by decide, by decide,
    trim_noop_within_ceiling "short answer" 10000 (by decide) c6toolmsg (by decide)⟩

/-! ## Claim C4 -/

/-- C4: the Router `should_continue` is a total function of the transcript
with exactly this case analysis: empty list → terminate (END); last message
an `AIMessage` with tool calls → tools; last message an `AIMessage` without
tool calls → feedback; any other last message → terminate; and no outcome
outside `tools` / `feedback` / `terminate` is possible. -/
theorem should_continue_cases (messages : List Message) :
    (messages = [] → should_continue messages = RouteDecision.terminate)
    ∧ (∀ (ms : List Message) (m : Message) (tool_calls : List ToolCall),
        messages = ms ++ [m] → m.kind = MsgKind.ai tool_calls →
        should_continue messages
          = (if tool_calls = [] then RouteDecision.feedback else RouteDecision.tools))
    ∧ (∀ (ms : List Message) (m : Message),
        messages = ms ++ [m] → (∀ tool_calls, m.kind ≠ MsgKind.ai tool_calls) →
        should_continue messages = RouteDecision.terminate)
    ∧ (should_continue messages = RouteDecision.tools
        ∨ should_continue messages = RouteDecision.feedback
        ∨ should_continue messages = RouteDecision.terminate) := by
  refine ⟨?_, ?_, ?_, ?_⟩
  · rintro rfl
    rfl
  · rintro ms m tool_calls rfl hk
    unfold should_continue
    rw [List.getLast?_concat]
    dsimp only
    rw [hk]
    cases tool_calls <;> simp
  · rintro ms m rfl hk
    unfold should_continue
    rw [List.getLast?_concat]
    dsimp only
    rcases hkind : m.kind with _ | _ | tcs | tcid
    · rfl
    · rfl
    · exact absurd hkind (hk tcs)
    · rfl
  · rcases h : should_continue messages with _ | _ | _
    · exact Or.inl rfl
    · exact Or.inr (Or.inl rfl)
    · exact Or.inr (Or.inr rfl)

/-- Witness for C4 on a concrete one-element transcript whose last message is
an `AIMessage` with one tool call. -/
theorem should_continue_cases_witness : should_continue [c4msg] = RouteDecision.tools := by
  have h := (should_continue_cases [c4msg]).2.1 [] c4msg [c4call] rfl rfl
  rw [if_neg (by decide)] at h
  exact h

/-! ## Claim C5 -/

/-- C5: when the oracle invocation raises, `agent_node` does not propagate the
exception: it returns exactly one synthetic `AIMessage` carrying the
user-facing error banner, with a generated (non-null) id and no tool calls,
and sets the state's `error` field to the `Agent error: ...` description;
consequently the Router routes any transcript ending in that message to
feedback, not to a crash. -/
theorem agent_node_oracle_exception (msgs : List Message) (prompt fresh : String)
    (oracle : List Message → Except PyExc Message) (e : PyExc)
    (h : oracle (sanitize_messages (prepend_system prompt msgs)) = Except.error e) :
    agent_node msgs prompt fresh oracle
      = { messages := [{ id := some fresh, content := error_banner (agent_error_msg e),
                         kind := MsgKind.ai [], error_flag := false }],
          error := some (agent_error_msg e) }
    ∧ ∀ history, should_continue (history ++ (agent_node msgs prompt fresh oracle).messages)
        = RouteDecision.feedback := by
  have h1 : agent_node msgs prompt fresh oracle
      = { messages := [{ id := some fresh, content := error_banner (agent_error_msg e),
                         kind := MsgKind.ai [], error_flag := false }],
          error := some (agent_error_msg e) } := by
    simp only [agent_node, h]
  refine ⟨h1, fun history => ?_⟩
  rw [h1]
  unfold should_continue
  rw [List.getLast?_concat]
  rfl

/-- Witness for C5: a concrete oracle that raises a timeout exception. -/
theorem agent_node_oracle_exception_witness :
    ((fun _ : List Message => (Except.error c5exc : Except PyExc Message))
        (sanitize_messages (prepend_system "p" [])) = Except.error c5exc)
    ∧ (agent_node [] "p" "uuid-err-1" (fun _ => Except.error c5exc)
        = { messages := [{ id := some "uuid-err-1",
                           content := error_banner (agent_error_msg c5exc),
                           kind := MsgKind.ai [], error_flag := false }],
            error := some (agent_error_msg c5exc) }
       ∧ ∀ history, should_continue
            (history ++ (agent_node [] "p" "uuid-err-1" (fun _ => Except.error c5exc)).messages)
            = RouteDecision.feedback) :=
  ⟨rfl, agent_node_oracle_exception [] "p" "uuid-err-1" (fun _ => Except.error c5exc) c5exc rfl⟩

/-! ## Claim C6 -/

/-- C6: every message returned by the Decision Step (`agent_node`, both the
normal and the exception arm) and every message returned by the Tool Invoker
wrapper (`tool_node`) has a non-null id: null ids are replaced by a freshly
generated uuid string before the messages are returned. -/
theorem node_ids_not_null (msgs : List Message) (prompt fresh : String)
    (oracle : List Message → Except PyExc Message)
    (freshf : Nat → String) (i : Nat) (raw : List Message) :
    (∀ m ∈ (agent_node msgs prompt fresh oracle).messages, m.id.isSome = true)
    ∧ (∀ m ∈ tool_node freshf i raw, m.id.isSome = true) := by
  constructor
  · intro m hm
    rcases ho : oracle (sanitize_messages (prepend_system prompt msgs)) with e | r
    · simp only [agent_node, ho, List.mem_singleton] at hm
      subst hm
      rfl
    · simp only [agent_node, ho, List.mem_singleton] at hm
      subst hm
      exact ensure_id_isSome r fresh
  · induction raw generalizing i with
    | nil => intro m hm; simp [tool_node] at hm
    | cons x rest ih =>
      intro m hm
      simp only [tool_node, List.mem_cons] at hm
      rcases hm with rfl | hm
      · exact fix_message_id_isSome freshf i x
      · exact ih (i + 1) m hm

/-- Witness for C6 on a concrete oracle reply and a concrete base tool-node
result, both with null ids. -/
theorem node_ids_not_null_witness :
    (∀ m ∈ (agent_node [] "prompt" "uuid-7" (fun _ => Except.ok c6resp)).messages,
        m.id.isSome = true)
    ∧ (∀ m ∈ tool_node (fun n => "uuid-t" ++ commaFmt n) 0 [c6toolmsg], m.id.isSome = true) :=
  node_ids_not_null [] "prompt" "uuid-7" (fun _ => Except.ok c6resp)
    (fun n => "uuid-t" ++ commaFmt n) 0 [c6toolmsg]

/-! ## Claim C7 -/

/-- C7: before invoking the oracle, `agent_node` prepends exactly one System
directive if and only if the transcript is empty or its head is not already a
System message (otherwise the transcript is unchanged); the directive text is
the prompt loaded from the external registry, and it falls back to the
built-in `DEFAULT_SYSTEM_PROMPT` whenever the registry is disabled or
unavailable — the fallback is a total function and never raises. -/
theorem system_directive_prepend (msgs : List Message) (mlflow_enabled : Bool)
    (registry_prompt : Option String) :
    ((msgs = [] ∨ ∃ m rest, msgs = m :: rest ∧ m.kind ≠ MsgKind.system) →
        prepend_system (load_prompt_from_mlflow mlflow_enabled registry_prompt) msgs
          = mkSystemMessage (load_prompt_from_mlflow mlflow_enabled registry_prompt) :: msgs)
    ∧ (∀ m rest, msgs = m :: rest → m.kind = MsgKind.system →
        prepend_system (load_prompt_from_mlflow mlflow_enabled registry_prompt) msgs = msgs)
    ∧ ((mlflow_enabled = false ∨ registry_prompt = none) →
        load_prompt_from_mlflow mlflow_enabled registry_prompt = DEFAULT_SYSTEM_PROMPT)
    ∧ (∀ t, mlflow_enabled = true → registry_prompt = some t →
        load_prompt_from_mlflow mlflow_enabled registry_prompt = t) := by
  refine ⟨?_, ?_, ?_, ?_⟩
  · rintro (rfl | ⟨m, rest, rfl, hk⟩)
    · rfl
    · rcases hkind : m.kind with _ | _ | tcs | tcid
      · exact absurd hkind hk
      · simp [prepend_system, head_is_system, hkind]
      · simp [prepend_system, head_is_system, hkind]
      · simp [prepend_system, head_is_system, hkind]
  · rintro m rest rfl hk
    simp [prepend_system, head_is_system, hk]
  · rintro (rfl | rfl)
    · rfl
    · cases mlflow_enabled <;> rfl
  · rintro t rfl rfl
    rfl

/-- Witness for C7: with the registry unavailable, the default directive is
prepended to a transcript that does not start with a System message. -/
theorem system_directive_prepend_witness :
    ([c4msg] = [] ∨ ∃ m rest, [c4msg] = m :: rest ∧ m.kind ≠ MsgKind.system)
    ∧ prepend_system (load_prompt_from_mlflow true none) [c4msg]
        = mkSystemMessage (load_prompt_from_mlflow true none) :: [c4msg]
    ∧ load_prompt_from_mlflow true none = DEFAULT_SYSTEM_PROMPT := by
  have hcond : ([c4msg] = [] ∨ ∃ m rest, [c4msg] = m :: rest ∧ m.kind ≠ MsgKind.system) :=
    Or.inr ⟨c4msg, [], rfl, by decide⟩
  have h := system_directive_prepend [c4msg] true none
  exact ⟨hcond, h.1 hcond, h.2.2.1 (Or.inr rfl)⟩

/-! ## Claim C8 -/

/-- C8 counterexample: the content `does not exist for the field` matches none
of the claim's four signatures (`Error:` marker, HTTP error markers,
stack-trace marker, or a case-insensitive `error` prefix), yet the Tool
Invoker flags it as an error, via the source's fifth signature that the claim
omits. -/
theorem tool_error_flag_counterexample :
    claimed_error_signature "does not exist for the field" = false
    ∧ (tool_node (fun _ => "uuid-x") 0 [c8msg]).map Message.error_flag = [true] := by
  decide

/-- C8 (amended): for every `ToolResult` message leaving the Tool Invoker
whose incoming error flag was unset, the error flag is set if and only if the
content matches one of the source's five signatures — the claim's four (an
`Error:` marker, an HTTP error marker, a stack-trace marker, or content
beginning with `error` case-insensitively) plus the tool-argument validation
marker `does not exist for the field`; content matching none of them carries
no flag, and the classification is computed once at the `tool_node`
boundary. -/
theorem tool_error_flag_iff (freshf : Nat → String) (i : Nat) (msgs : List Message)
    (hall : ∀ m ∈ msgs, m.error_flag = false) :
    ∀ m' ∈ tool_node freshf i msgs,
      m'.error_flag = classify_error m'.content
      ∧ classify_error m'.content
          = (claimed_error_signature m'.content
             || isSubstr "does not exist for the field" m'.content) := by
  induction msgs generalizing i with
  | nil => intro m' hm'; simp [tool_node] at hm'
  | cons m rest ih =>
    intro m' hm'
    simp only [tool_node, List.mem_cons] at hm'
    rcases hm' with rfl | hm'
    · have hm0 : m.error_flag = false := hall m (by simp)
      refine ⟨?_, classify_error_eq _⟩
      rw [fix_message_content freshf i m, fix_message_flag freshf i m hm0]
    · exact ih (i + 1) (fun x hx => hall x (List.mem_cons_of_mem m hx)) m' hm'

/-- Witness for C8 (amended) on a concrete non-error tool message. -/
theorem tool_error_flag_iff_witness :
    (∀ m ∈ [c6toolmsg], m.error_flag = false)
    ∧ ∀ m' ∈ tool_node (fun _ => "uuid-y") 0 [c6toolmsg],
        m'.error_flag = classify_error m'.content
        ∧ classify_error m'.content
            = (claimed_error_signature m'.content
               || isSubstr "does not exist for the field" m'.content) :=
  ⟨by decide, tool_error_flag_iff (fun _ => "uuid-y") 0 [c6toolmsg] (by decide)⟩

/-! ## Claim C9 -/

/-- C9 counterexample: with `OPENAI_API_KEY` set to the non-empty value
`" "` (a single space) and `ANTHROPIC_API_KEY` unset, exactly one credential
is a non-empty string, yet `Settings` construction raises the missing-key
`ValueError`, because the validator strips whitespace before testing. -/
theorem resolve_api_key_counterexample :
    claimed_exactly_one " " "" = true
    ∧ except_ok (resolve_api_key " " "") = false := by
  decide

/-- C9 (amended): `Settings` construction succeeds if and only if exactly one
of the two credentials is non-blank (non-empty after stripping whitespace);
with zero or two non-blank credentials it raises; with exactly one, the
resolved `api_key` is that credential's stripped value, and — provided the
other credential is the empty string — `get_model` selects the corresponding
provider (it tests the raw, unstripped values, OpenAI first). -/
theorem resolve_api_key_exactly_one (o a : String) :
    (except_ok (resolve_api_key o a) = true
      ↔ ((py_strip o ≠ "" ∧ py_strip a = "") ∨ (py_strip o = "" ∧ py_strip a ≠ "")))
    ∧ (py_strip o ≠ "" → py_strip a = "" → resolve_api_key o a = Except.ok (py_strip o))
    ∧ (py_strip a ≠ "" → py_strip o = "" → resolve_api_key o a = Except.ok (py_strip a))
    ∧ (py_strip o ≠ "" → a = "" → get_model o a = Except.ok (Provider.openai, o))
    ∧ (py_strip a ≠ "" → o = "" → get_model o a = Except.ok (Provider.anthropic, a)) := by
  have hstrip_nil : py_strip "" = "" := by decide
  refine ⟨?_, ?_, ?_, ?_, ?_⟩
  · by_cases ho : py_strip o = "" <;> by_cases ha : py_strip a = "" <;>
      simp [resolve_api_key, except_ok, ho, ha, List.filter]
  · intro ho ha
    simp [resolve_api_key, except_ok, ho, ha, List.filter]
  · intro ha ho
    simp [resolve_api_key, except_ok, ho, ha, List.filter]
  · intro ho ha
    have hone : o ≠ "" := fun hc => ho (by rw [hc]; exact hstrip_nil)
    subst ha
    simp [get_model, hone]
  · intro ha ho
    have hane : a ≠ "" := fun hc => ha (by rw [hc]; exact hstrip_nil)
    subst ho
    simp [get_model, hane]

/-- Witness for C9 (amended): one non-blank OpenAI credential, Anthropic
unset. -/
theorem resolve_api_key_exactly_one_witness :
    (py_strip "sk-abc" ≠ "" ∧ py_strip "" = "")
    ∧ resolve_api_key "sk-abc" "" = Except.ok (py_strip "sk-abc")
    ∧ get_model "sk-abc" "" = Except.ok (Provider.openai, "sk-abc") := by
  have h := resolve_api_key_exactly_one "sk-abc" ""
  exact ⟨⟨by decide, by decide⟩, h.2.1 (by decide) (by decide), h.2.2.2.1 (by decide) rfl⟩

/-! ## Claim C2 -/

/-- C2 counterexample: on the resume payload `not sure` (not valid JSON,
containing no `yes`), the Feedback Step does not skip: the substring fallback
maps it to the negative signal `no` and, with tracing enabled and an active
trace, a `FeedbackRecord` with satisfaction `false` is written to the sink. -/
theorem feedback_not_sure_counterexample :
    (feedback_node c2msgs true (some "trace-1") (ResumePayload.str "not sure")).extracted
        = some "no"
    ∧ (feedback_node c2msgs true (some "trace-1") (ResumePayload.str "not sure")).record
        = some { trace_id := "trace-1", name := "user_satisfaction", value := false,
                 rationale := "User indicated response was not helpful",
                 source_type := "HUMAN", source_id := "agent_feedback_node" } := by
  decide

/-- C2 (amended): a string resume payload that fails JSON parsing is mapped by
the substring fallback to `yes` when it contains `yes` (case-insensitively)
and to `no` otherwise — there is no no-signal case for string payloads.  In
particular `not sure` is extracted as `no`, and whenever a final `AIMessage`
exists, tracing is enabled and an active trace id is present, the step writes
a `FeedbackRecord` with satisfaction `false` (it skips with no record only
when extraction yields a falsy value, e.g. a structured payload without a
`feedback` field). -/
theorem feedback_not_sure_scored_no (msgs : List Message) (tid : String)
    (h : find_last_final_ai msgs ≠ none) :
    (feedback_node msgs true (some tid) (ResumePayload.str "not sure")).extracted = some "no"
    ∧ (feedback_node msgs true (some tid) (ResumePayload.str "not sure")).record
        = some { trace_id := tid, name := "user_satisfaction", value := false,
                 rationale := "User indicated response was not helpful",
                 source_type := "HUMAN", source_id := "agent_feedback_node" } := by
  have hx : extract_feedback (ResumePayload.str "not sure") = some "no" := by decide
  rcases hfind : find_last_final_ai msgs with _ | m
  · exact absurd hfind h
  · have hne : feedback_is_empty (extract_feedback (ResumePayload.str "not sure")) = false := by
      decide
    unfold feedback_node
    rw [hfind]
    dsimp only
    rw [hx] at hne ⊢
    rw [if_neg (by simp [hne])]
    constructor
    · rfl
    · dsimp only [Option.getD]
      rw [if_pos rfl]
      norm_num
      exact ⟨by decide, by rw [if_neg (by decide)]; decide⟩

/-- Witness for C2 (amended) at a concrete transcript and trace id. -/
theorem feedback_not_sure_scored_no_witness :
    find_last_final_ai c2msgs ≠ none
    ∧ ((feedback_node c2msgs true (some "trace-9") (ResumePayload.str "not sure")).extracted
          = some "no"
       ∧ (feedback_node c2msgs true (some "trace-9") (ResumePayload.str "not sure")).record
          = some { trace_id := "trace-9", name := "user_satisfaction", value := false,
                   rationale := "User indicated response was not helpful",
                   source_type := "HUMAN", source_id := "agent_feedback_node" }) :=
  ⟨by decide, feedback_not_sure_scored_no c2msgs "trace-9" (by decide)⟩

/-! ## Claim C10 -/

/-- C10: for every structured (dict) resume payload that lacks a `feedback`
key or whose `feedback` value is empty, the Feedback Step writes no record to
the trace sink and returns normally (its state update is empty on every path
of the embedding) — the missing field is treated as a skip, not an error. -/
theorem feedback_missing_field_skip (msgs : List Message) (d : List (String × String))
    (mlflow_enabled : Bool) (active_trace_id : Option String)
    (h : (d.lookup "feedback").getD "" = "") :
    (feedback_node msgs mlflow_enabled active_trace_id (ResumePayload.dict d)).record
      = none := by
  unfold feedback_node
  rcases hfind : find_last_final_ai msgs with _ | m
  · rfl
  · dsimp only
    cases d with
    | nil =>
      rw [if_pos (by decide)]
    | cons kv rest =>
      have hx : extract_feedback (ResumePayload.dict (kv :: rest))
          = some (((kv :: rest).lookup "feedback").getD "") := by
        simp [extract_feedback, payload_truthy]
      rw [hx, h]
      rw [if_pos (by decide)]

/-- Witness for C10 on a concrete dict payload without a `feedback` key. -/
theorem feedback_missing_field_skip_witness :
    (([(("other" : String), ("1" : String))].lookup "feedback").getD "" = "")
    ∧ (feedback_node c2msgs true (some "trace-2")
          (ResumePayload.dict [("other", "1")])).record = none :=
  ⟨by decide,
    feedback_missing_field_skip c2msgs [("other", "1")] true (some "trace-2") (by decide)⟩
